import Mathlib

/-!
# Verification of the quiz session & orchestration engine

Shallow embedding, in Lean 4, of the session / retry / usage-limiter /
quiz-variant code of the `gemini-movie-detectives-api` repository, together
with proofs about the properties its specification states.

Conventions used throughout:

* Python exceptions become explicit `Except` results.  `Err.valueError`
  models Python's `ValueError` (the kind raised by the Gemini reply parsers
  and caught by the `retry` decorator), `Err.httpError code detail` models
  `fastapi.HTTPException(status_code, detail)`.
* Calls to external collaborators (TMDB, Gemini chat, Imagen, speech
  synthesis, Wikipedia, Firestore documents) are inputs of the embedded
  functions: each function receives the outcome the collaborator would
  produce.  A Gemini transport failure (`GoogleAPIError`) is the `.error`
  branch of a `ChatResult`.
* The JSON layer of the reply parsers (`Model.model_validate(from_json(s))`)
  is abstracted by `Reply α`: a reply either is well-formed JSON matching the
  expected schema (carrying the decoded value) or malformed raw text, in
  which case the parser raises `ValueError` exactly as the source does.
* Wall-clock time is a `Nat` (seconds); `datetime.now()` becomes an explicit
  `now` argument.
-/

set_option autoImplicit false

namespace MovieDetectives

/-- Embedded: `QuizType` enum from `main.py` / `model.py`. -/
inductive QuizType where
  | titleDetectives
  | sequelSalad
  | bttfTrivia
  | trivia
  deriving Repr, DecidableEq

/-- The string value of each enum member (`'title-detectives'`, ...). -/
def QuizType.value : QuizType → String
  | .titleDetectives => "title-detectives"
  | .sequelSalad => "sequel-salad"
  | .bttfTrivia => "bttf-trivia"
  | .trivia => "trivia"

/-- Python exceptions surfaced by the embedded code.  `valueError` is
`ValueError` (the only exception kind the `retry` decorator catches);
`httpError` is `fastapi.HTTPException(status_code, detail)`. -/
inductive Err where
  | valueError (msg : String)
  | httpError (code : Nat) (detail : String)
  deriving Repr, DecidableEq

/-- Embedded: `str(e)` for an exception interpolated into an f-string detail. -/
def Err.pyMsg : Err → String
  | .valueError m => m
  | .httpError _ d => d

/-- Is this exception a `ValueError`?  The `retry` decorator in `main.py`
catches exactly this class. -/
def Err.isValueError : Err → Bool
  | .valueError _ => true
  | .httpError _ _ => false

/-- Raw Gemini reply text, abstracted at the JSON layer: either well-formed
JSON matching the expected pydantic schema `α` (carrying the decoded value)
or malformed text. -/
inductive Reply (α : Type) where
  | wellFormed (value : α)
  | malformed (raw : String)
  deriving Repr, DecidableEq

/-- Embeds the four identical `_parse_gemini_question` / `_parse_gemini_answer`
static methods: `Model.model_validate(from_json(gemini_reply))`, re-raising
any failure as `ValueError('Gemini replied with an unexpected format. ...')`. -/
def parseGeminiReply {α : Type} : Reply α → Except Err α
  | .wellFormed v => .ok v
  | .malformed raw =>
      .error (.valueError ("Gemini replied with an unexpected format. Gemini reply: " ++ raw))

/-- Outcome of `gemini_client.get_chat_response(chat, prompt)`: either the
reply text (already classified against the expected schema) or a
`GoogleAPIError` with its message. -/
abbrev ChatResult (α : Type) := Except String (Reply α)

/-- The TMDB movie detail record (`dict` in the source); only the fields the
embedded code reads are kept.  `vote_average` is kept as an integer number of
tenths because the claims never depend on it. -/
structure Movie where
  title : String
  tagline : String
  overview : String
  genres : List String
  budget : Int
  revenue : Int
  vote_average : Int
  vote_count : Int
  release_date : String
  runtime : Int
  deriving Repr, DecidableEq

/-- Embedded: `GeminiQuestion` (`gemini.py`), identical to
`TitleDetectivesGeminiQuestion` (`model.py`). -/
structure GeminiQuestion where
  question : String
  hint1 : String
  hint2 : String
  deriving Repr, DecidableEq

/-- Embedded: `GeminiAnswer` (`gemini.py`), identical to
`TitleDetectivesGeminiAnswer` (`model.py`). -/
structure GeminiAnswer where
  points : Int
  answer : String
  deriving Repr, DecidableEq

/-- Embedded: `TitleDetectivesData` (`main.py` / `model.py`): the per-session payload of
the title-detectives variant.  (The `chat=chat` keyword passed at the
construction site in the source is ignored by pydantic: the model declares no
such field.) -/
structure TitleDetectivesData where
  question : GeminiQuestion
  movie : Movie
  speech : String
  deriving Repr, DecidableEq

/-! ## The session store: `cachetools.TTLCache(maxsize=100, ttl=600)`

`main.py`: `session_cache: TTLCache = TTLCache(maxsize=100, ttl=600)`.
An entry carries the absolute expiry recorded at insertion time
(`insertion time + ttl`); a lookup treats an entry whose expiry is not in the
future as absent; insertion first discards expired entries, replaces any
entry under the same key, and evicts oldest-inserted entries while the size
bound is exceeded. -/

/-- A TTL cache is a sequence of live entries `(key, value, expires)` in
insertion order (oldest first). -/
abbrev Cache (α : Type) := List (String × α × Nat)

/-- Session TTL in seconds (`ttl=600` in `main.py`). -/
def sessionTtl : Nat := 600

/-- Session capacity (`maxsize=100` in `main.py`). -/
def sessionMaxsize : Nat := 100

/-- Embedded: `cache[key]` / `cache.get(key)`: the first entry under `key`, treated as
absent unless its expiry is still in the future. -/
def cacheGet {α : Type} (now : Nat) (key : String) (c : Cache α) : Option α :=
  match c.find? (fun e => e.1 == key) with
  | none => none
  | some e => if now < e.2.2 then some e.2.1 else none

/-- Embedded: `del cache[key]`. -/
def cacheDel {α : Type} (key : String) (c : Cache α) : Cache α :=
  c.filter (fun e => e.1 != key)

/-- Keep only the `maxsize` most recently inserted entries (the eviction loop
of `Cache.__setitem__`, which pops oldest-inserted entries while over
capacity). -/
def cacheShrink {α : Type} (c : Cache α) : Cache α :=
  c.drop (c.length - sessionMaxsize)

/-- Embedded: `cache[key] = v`: discard expired entries, replace any entry under the
same key, append the new entry with expiry `now + ttl`, evict while over
capacity. -/
def cachePut {α : Type} (now : Nat) (key : String) (v : α) (c : Cache α) : Cache α :=
  cacheShrink
    (((c.filter (fun e => now < e.2.2)).filter (fun e => e.1 != key))
      ++ [(key, v, now + sessionTtl)])

/-! ## `main.py`: session data, `finish_quiz`, `start_quiz` -/

/-- Embedded: `quiz_data: Union[TitleDetectivesData, dict]` (`main.py`): the
title-detectives payload, or the placeholder `{}` dict returned by the
`start_sequel_salad` / `start_bttf_trivia` / `start_trivia` stubs. -/
inductive QuizData where
  | titleDetectives (d : TitleDetectivesData)
  | emptyDict
  deriving Repr, DecidableEq

/-- Embedded: `SessionData` (`main.py`).  The `ChatSession` handle is opaque; it is
identified by a number. -/
structure SessionData where
  quiz_id : String
  quiz_data : QuizData
  chat : Nat
  started_at : Nat
  deriving Repr, DecidableEq

/-- Embedded: `FinishQuizResponse` (`main.py`). -/
structure FinishQuizResponse where
  quiz_id : String
  question : GeminiQuestion
  movie : Movie
  user_answer : String
  result : GeminiAnswer
  speech : String
  deriving Repr, DecidableEq

/-- Embedded: `StartQuizResponse` (`main.py`). -/
structure StartQuizResponse where
  quiz_id : String
  quiz_type : QuizType
  quiz_data : QuizData
  deriving Repr, DecidableEq

/-- Embedded: `finish_quiz(quiz_id, user_answer)` (`main.py:271-302`), the body wrapped
by `@retry`.  Inputs from collaborators: `reply` is the outcome of
`gemini_client.get_chat_response(chat, prompt)` classified against the
`GeminiAnswer` schema, `synth` is `speech_client.synthesize_to_file`.
Returns the endpoint result together with the session cache that remains.

Source structure: look up the session (404 if absent); then, inside
`try`: build the answer prompt, take the chat handle, **delete the session**,
call Gemini, parse its reply, build the response — any `GoogleAPIError`
becomes HTTP 500 `'Google API error: ...'`, any other exception (including
the `ValueError` of a malformed reply, and the attribute error of a session
whose `quiz_data` is the stub `{}`) becomes HTTP 500
`'Internal server error: ...'`. -/
def finishQuiz (cache : Cache SessionData) (now : Nat) (quizId : String)
    (userAnswer : String) (reply : ChatResult GeminiAnswer)
    (synth : String → String) :
    Except Err FinishQuizResponse × Cache SessionData :=
  match cacheGet now quizId cache with
  | none => (.error (.httpError 404 "Session not found"), cache)
  | some sessionData =>
    -- inside the `try`: the session is deleted before the Gemini call
    let cache' := cacheDel quizId cache
    match reply with
    | .error apiMsg =>
        (.error (.httpError 500 ("Google API error: " ++ apiMsg)), cache')
    | .ok r =>
      match parseGeminiReply r with
      | .error e =>
          (.error (.httpError 500 ("Internal server error: " ++ e.pyMsg)), cache')
      | .ok geminiAnswer =>
        match sessionData.quiz_data with
        | .emptyDict =>
            -- `session_data.quiz_data.question` on a plain dict raises,
            -- caught by the `BaseException` handler
            (.error (.httpError 500 "Internal server error: AttributeError"), cache')
        | .titleDetectives d =>
            (.ok { quiz_id := quizId
                   question := d.question
                   movie := d.movie
                   user_answer := userAnswer
                   result := geminiAnswer
                   speech := synth geminiAnswer.answer }, cache')

/-- Embedded: `start_title_detectives` (`main.py:344-384`, structurally identical to
`TitleDetectives.start_title_detectives` in `quiz/title_detectives.py`).
`movie` is the outcome of `tmdb_client.get_random_movie(...)`; `reply` the
outcome of the Gemini call classified against the question schema.  A missing
movie raises HTTP 404 before the `try`; inside the `try`, `GoogleAPIError`
becomes HTTP 500 `'Google API error: ...'` and every other exception
(including the parser's `ValueError`) becomes HTTP 500
`'Internal server error: ...'`. -/
def startTitleDetectives (movie : Option Movie)
    (reply : ChatResult GeminiQuestion) (synth : String → String) :
    Except Err TitleDetectivesData :=
  match movie with
  | none => .error (.httpError 404 "No movie found with given criteria")
  | some m =>
    match reply with
    | .error apiMsg => .error (.httpError 500 ("Google API error: " ++ apiMsg))
    | .ok r =>
      match parseGeminiReply r with
      | .error e => .error (.httpError 500 ("Internal server error: " ++ e.pyMsg))
      | .ok q => .ok { question := q, movie := m, speech := synth q.question }

/-- Embedded: `start_quiz(quiz_type, quiz_config)` (`main.py:315-341`), the body wrapped
by `@retry`.  `quizId` stands for the generated `uuid4`, `chatId` for the
fresh `ChatSession`.  Dispatches on the variant (the non-title variants are
`todo` stubs returning `{}`), stores the session in the TTL cache, and
returns the same `quiz_data` in the response. -/
def startQuiz (cache : Cache SessionData) (now : Nat) (quizId : String)
    (chatId : Nat) (quizType : QuizType) (movie : Option Movie)
    (reply : ChatResult GeminiQuestion) (synth : String → String) :
    Except Err StartQuizResponse × Cache SessionData :=
  let quizData : Except Err QuizData :=
    match quizType with
    | .titleDetectives => (startTitleDetectives movie reply synth).map .titleDetectives
    | .sequelSalad => .ok .emptyDict
    | .bttfTrivia => .ok .emptyDict
    | .trivia => .ok .emptyDict
  match quizData with
  | .error e => (.error e, cache)
  | .ok qd =>
    let cache' := cachePut now quizId
      { quiz_id := quizId, quiz_data := qd, chat := chatId, started_at := now } cache
    (.ok { quiz_id := quizId, quiz_type := quizType, quiz_data := qd }, cache')

/-! ## The `retry` decorator (`main.py:218-235`)

```
def retry(max_retries):
    def decorator(func):
        def wrapper(*args, **kwargs):
            for _ in range(max_retries):
                try:
                    return func(*args, **kwargs)
                except ValueError as e:
                    if _ < max_retries - 1:
                        sleep(1)
                    else:
                        raise e
```

The wrapped call is an attempt-indexed oracle `attempts : Nat → Except Err α`
(each re-invocation is a fresh generation, so attempts may differ).  The
trace records the value returned or exception raised (`none` when
`max_retries = 0` and the loop body never runs, so the wrapper falls through
returning Python `None`), the number of invocations of the wrapped function,
and the number of `sleep(1)` calls between attempts. -/

/-- Result of running a `retry`-wrapped call. -/
structure RetryTrace (α : Type) where
  result : Option (Except Err α)
  calls : Nat
  sleeps : Nat

/-- The loop of the `retry` wrapper, starting at iteration `i` of
`range(max_retries)`. -/
def retryFrom {α : Type} (maxRetries : Nat) (attempts : Nat → Except Err α) :
    Nat → RetryTrace α
  | i =>
    if _h : i < maxRetries then
      match attempts i with
      | .ok a => { result := some (.ok a), calls := 1, sleeps := 0 }
      | .error e =>
        if e.isValueError then
          if i < maxRetries - 1 then
            let t := retryFrom maxRetries attempts (i + 1)
            { result := t.result, calls := t.calls + 1, sleeps := t.sleeps + 1 }
          else
            { result := some (.error e), calls := 1, sleeps := 0 }
        else
          -- a non-`ValueError` exception propagates out of the loop at once
          { result := some (.error e), calls := 1, sleeps := 0 }
    else
      { result := none, calls := 0, sleeps := 0 }
  termination_by i => maxRetries - i

/-- A call to `retry(max_retries)(func)(...)`. -/
def retryRun {α : Type} (maxRetries : Nat) (attempts : Nat → Except Err α) :
    RetryTrace α :=
  retryFrom maxRetries attempts 0

/-! ## The usage limiter (`storage.py:145-181`)

`FirestoreClient.update_usage_count` runs `_update_usage_count` inside a
Firestore transaction: the buffered writes are committed only when the
decorated function returns normally, so a raised `LimitExceededError` (or
`ValueError`) leaves the stored counts unchanged.  The per-day usage document
is `Option UsageCounts` (`none` = the document for today does not exist yet;
its counts then read as the zeros it would be initialised with). -/

/-- The `counts` map of a `usage_{today}` document. -/
abbrev UsageCounts := QuizType → Nat

/-- Embedded: `{qt.value: 0 for qt in QuizType}`. -/
def initialCounts : UsageCounts := fun _ => 0

/-- The count a usage document holds for a variant
(`usage['counts'].get(quiz_type, 0)`, with a missing document reading as the
zero-initialised one). -/
def usageCount (usageDoc : Option UsageCounts) (quizType : QuizType) : Nat :=
  (usageDoc.getD initialCounts) quizType

/-- Exceptions of `_update_usage_count`: `ValueError` for a variant with no
configured limit, `LimitExceededError(message, quiz_type, usage, limit)`
once the limit is reached. -/
inductive UsageError where
  | valueError (msg : String)
  | limitExceeded (quiz_type : QuizType) (usage : Nat) (limit : Nat)
  deriving Repr, DecidableEq

/-- Embedded: `_update_usage_count(transaction, limits, quiz_type, usage_ref)`
(`storage.py:153-181`).  On success the transaction commits: the call returns
the incremented count and the committed usage document.  On failure the
transaction rolls back: no state change. -/
def updateUsageCount (limits : QuizType → Option Nat)
    (usageDoc : Option UsageCounts) (quizType : QuizType) :
    Except UsageError (Nat × UsageCounts) :=
  match limits quizType with
  | none => .error (.valueError ("No limit configured for " ++ quizType.value))
  | some limit =>
    let counts := usageDoc.getD initialCounts
    let currentCount := counts quizType
    if limit ≤ currentCount then
      .error (.limitExceeded quizType currentCount limit)
    else
      let updatedCount := currentCount + 1
      .ok (updatedCount, Function.update counts quizType updatedCount)

/-- A sequence of `n` calls to `update_usage_count` for one variant, starting
from a fresh day (no usage document).  Returns the list of call results in
order and the final usage document. -/
def runUsageCalls (limits : QuizType → Option Nat) (quizType : QuizType) :
    Nat → List (Except UsageError Nat) × Option UsageCounts
  | 0 => ([], none)
  | n + 1 =>
    let prev := runUsageCalls limits quizType n
    match updateUsageCount limits prev.2 quizType with
    | .ok (c, counts') => (prev.1 ++ [.ok c], some counts')
    | .error e => (prev.1 ++ [.error e], prev.2)

/-! ## `imagen.py`: `ImagenClient.generate_image`

`_try_generate_image` wraps the Imagen call in `try/except Exception` and
returns a boolean, so `generate_image` never raises.  The external model's
behaviour is the oracle `attemptOk : String → Bool` (whether a generation
attempt with a given prompt succeeds); `fileId` stands for the generated
`uuid4`.  Besides the source's return value, the embedding records the list
of prompts for which a generation attempt was actually made. -/

/-- Embedded: `_get_fallback_prompt(fallback)` (`imagen.py`). -/
def getFallbackPrompt (fallback : String) : String :=
  "Kids friendly movie poster in the context of: " ++ fallback

/-- Python truthiness of the `Optional[str]` fallback in
`if fallback and self._try_generate_image(...)`. -/
def fallbackTruthy : Option String → Bool
  | none => false
  | some s => s != ""

/-- Embedded: `ImagenClient.generate_image(prompt, fallback=None)` (`imagen.py:22-33`).
Returns `(result, attempted prompts)`. -/
def generateImage (attemptOk : String → Bool) (fileId : String)
    (prompt : String) (fallback : Option String) :
    Option String × List String :=
  let imagePath := "/images/" ++ fileId ++ ".png"
  if attemptOk prompt then
    (some imagePath, [prompt])
  else if fallbackTruthy fallback then
    let fb := getFallbackPrompt (fallback.getD "")
    if attemptOk fb then (some imagePath, [prompt, fb])
    else (none, [prompt, fb])
  else
    (none, [prompt])

/-! ## `quiz/sequel_salad.py`: `SequelSalad` -/

/-- Embedded: `SequelSaladGeminiQuestion` (`model.py`). -/
structure SequelSaladGeminiQuestion where
  sequel_plot : String
  sequel_title : String
  poster_prompt : String
  deriving Repr, DecidableEq

/-- Embedded: `SequelSaladGeminiAnswer` (`model.py`). -/
structure SequelSaladGeminiAnswer where
  points : Int
  answer : String
  deriving Repr, DecidableEq

/-- Embedded: `SequelSaladData` (`model.py`). -/
structure SequelSaladData where
  question : SequelSaladGeminiQuestion
  franchise : String
  speech : String
  poster : Option String
  deriving Repr, DecidableEq

/-- Embedded: `FirestoreClient.get_franchises` (`storage.py:117-126`): raises
`ValueError` when the `franchises` document is missing, lacks the field or
holds an empty list.  `franchisesDoc` is the raw document content. -/
def getFranchises (franchisesDoc : Option (List String)) :
    Except Err (List String) :=
  match franchisesDoc with
  | none => .error (.valueError "Franchises document not found or empty")
  | some l =>
    if l.isEmpty then .error (.valueError "Franchises document not found or empty")
    else .ok l

/-- Embedded: `SequelSalad.start_sequel_salad(personality, chat)`
(`quiz/sequel_salad.py:38-61`).  `choiceIdx` resolves `random.choice` (any
index; reduced modulo the list length).  Everything runs inside `try`:
`GoogleAPIError` becomes HTTP 500 `'Google API error: ...'`, all other
exceptions (the `ValueError` of `get_franchises`, the parser's `ValueError`)
become HTTP 500 `'Internal server error: ...'`.  The poster is produced by
`generate_image(gemini_question.poster_prompt)` — no fallback argument is
passed at this call site.  Returns the result together with the list of
image-generation prompts attempted. -/
def startSequelSalad (franchisesDoc : Option (List String)) (choiceIdx : Nat)
    (reply : ChatResult SequelSaladGeminiQuestion)
    (attemptOk : String → Bool) (fileId : String) (synth : String → String) :
    Except Err SequelSaladData × List String :=
  match getFranchises franchisesDoc with
  | .error e => (.error (.httpError 500 ("Internal server error: " ++ e.pyMsg)), [])
  | .ok franchises =>
    let franchise := franchises.getD (choiceIdx % franchises.length) ""
    match reply with
    | .error apiMsg => (.error (.httpError 500 ("Google API error: " ++ apiMsg)), [])
    | .ok r =>
      match parseGeminiReply r with
      | .error e => (.error (.httpError 500 ("Internal server error: " ++ e.pyMsg)), [])
      | .ok q =>
        let (poster, attempted) := generateImage attemptOk fileId q.poster_prompt none
        (.ok { question := q
               franchise := franchise
               speech := synth q.sequel_plot
               poster := poster }, attempted)

/-! ## `quiz/bttf_trivia.py`: `BttfTrivia` -/

/-- Embedded: `BttfTriviaGeminiQuestion` (`model.py:80-86`), identical in shape to
`TriviaGeminiQuestion`. -/
structure BttfTriviaGeminiQuestion where
  question : String
  option_1 : String
  option_2 : String
  option_3 : String
  option_4 : String
  correct_answer : Int
  deriving Repr, DecidableEq

/-- Embedded: `BttfTriviaGeminiAnswer` (`model.py`), identical in shape to
`TriviaGeminiAnswer`. -/
structure BttfTriviaGeminiAnswer where
  answer : String
  deriving Repr, DecidableEq

/-- Embedded: `BttfTriviaData` (`model.py`). -/
structure BttfTriviaData where
  question : BttfTriviaGeminiQuestion
  speech : String
  deriving Repr, DecidableEq

/-- Embedded: `BttfTriviaResult` (`model.py`). -/
structure BttfTriviaResult where
  question : BttfTriviaGeminiQuestion
  user_answer : Int
  result : BttfTriviaGeminiAnswer
  points : Int
  speech : String
  deriving Repr, DecidableEq

/-- Embedded: `BttfTrivia.start_bttf_trivia(personality, chat)`
(`quiz/bttf_trivia.py:37-57`).  `facts` is the outcome of
`wiki_client.get_random_bttf_facts()` (raised `ValueError` when no Wikipedia
page is found — outside the `try`, so it propagates unconverted). -/
def startBttfTrivia (facts : Except String String)
    (reply : ChatResult BttfTriviaGeminiQuestion) (synth : String → String) :
    Except Err BttfTriviaData :=
  match facts with
  | .error m => .error (.valueError m)
  | .ok _ =>
    match reply with
    | .error apiMsg => .error (.httpError 500 ("Google API error: " ++ apiMsg))
    | .ok r =>
      match parseGeminiReply r with
      | .error e => .error (.httpError 500 ("Internal server error: " ++ e.pyMsg))
      | .ok q => .ok { question := q, speech := synth q.question }

/-- Embedded: `BttfTrivia.finish_bttf_trivia(answer, quiz_data, chat, user_id)`
(`quiz/bttf_trivia.py:59-79`).  The feedback text is always produced through
the session's conversation (`reply`); the points are computed locally:
`3 if answer == quiz_data.question.correct_answer else 0`.  (The
`inc_games` / `inc_score` profile writes swallow their own exceptions and do
not influence the result.) -/
def finishBttfTrivia (answer : Int) (quizData : BttfTriviaData)
    (reply : ChatResult BttfTriviaGeminiAnswer) (synth : String → String) :
    Except Err BttfTriviaResult :=
  match reply with
  | .error apiMsg => .error (.httpError 500 ("Google API error: " ++ apiMsg))
  | .ok r =>
    match parseGeminiReply r with
    | .error e => .error (.httpError 500 ("Internal server error: " ++ e.pyMsg))
    | .ok geminiAnswer =>
      let points : Int := if answer = quizData.question.correct_answer then 3 else 0
      .ok { question := quizData.question
            user_answer := answer
            result := geminiAnswer
            points := points
            speech := synth geminiAnswer.answer }

/-! ## `quiz/trivia.py`: `Trivia` -/

/-- Embedded: `TriviaGeminiQuestion` (`model.py`). -/
abbrev TriviaGeminiQuestion := BttfTriviaGeminiQuestion

/-- Embedded: `TriviaGeminiAnswer` (`model.py`). -/
abbrev TriviaGeminiAnswer := BttfTriviaGeminiAnswer

/-- Embedded: `TriviaData` (`model.py`). -/
structure TriviaData where
  question : TriviaGeminiQuestion
  movie : Movie
  speech : String
  deriving Repr, DecidableEq

/-- Embedded: `TriviaResult` (`model.py`). -/
structure TriviaResult where
  question : TriviaGeminiQuestion
  movie : Movie
  user_answer : Int
  result : TriviaGeminiAnswer
  points : Int
  speech : String
  deriving Repr, DecidableEq

/-- Embedded: `getattr(quiz_data.question, f'option_{answer}')`: the text of the chosen
option, `none` when the attribute does not exist (Python raises
`AttributeError`). -/
def triviaOption (q : TriviaGeminiQuestion) : Int → Option String
  | 1 => some q.option_1
  | 2 => some q.option_2
  | 3 => some q.option_3
  | 4 => some q.option_4
  | _ => none

/-- Embedded: `Trivia.finish_quiz(answer, quiz_data, chat, user_id)`
(`quiz/trivia.py:57-81`).  The option text is looked up (an `AttributeError`
for an out-of-range index is caught by the `BaseException` handler before any
Gemini call); the feedback text is then produced through the conversation and
the points computed locally: `3 if is_correct_answer else 0`. -/
def finishTrivia (answer : Int) (quizData : TriviaData)
    (reply : ChatResult TriviaGeminiAnswer) (synth : String → String) :
    Except Err TriviaResult :=
  match triviaOption quizData.question answer with
  | none => .error (.httpError 500 "Internal server error: AttributeError")
  | some _userAnswerText =>
    match reply with
    | .error apiMsg => .error (.httpError 500 ("Google API error: " ++ apiMsg))
    | .ok r =>
      match parseGeminiReply r with
      | .error e => .error (.httpError 500 ("Internal server error: " ++ e.pyMsg))
      | .ok geminiAnswer =>
        let isCorrect := answer = quizData.question.correct_answer
        let points : Int := if isCorrect then 3 else 0
        .ok { question := quizData.question
              movie := quizData.movie
              user_answer := answer
              result := geminiAnswer
              points := points
              speech := synth geminiAnswer.answer }

/-- Embedded: `MovieFacts` (`wiki.py`). -/
structure MovieFacts where
  movie_title : String
  facts : String
  movie : Movie
  deriving Repr, DecidableEq

/-- Embedded: `Trivia.start_quiz(personality, chat)` (`quiz/trivia.py:21-55`).
`movieFacts` is the outcome of `wiki_client.get_random_movie_facts()`
(raised `ValueError` after its internal retries are exhausted — outside the
`try`, so it propagates unconverted). -/
def startTrivia (movieFacts : Except String MovieFacts)
    (reply : ChatResult TriviaGeminiQuestion) (synth : String → String) :
    Except Err TriviaData :=
  match movieFacts with
  | .error m => .error (.valueError m)
  | .ok mf =>
    match reply with
    | .error apiMsg => .error (.httpError 500 ("Google API error: " ++ apiMsg))
    | .ok r =>
      match parseGeminiReply r with
      | .error e => .error (.httpError 500 ("Internal server error: " ++ e.pyMsg))
      | .ok q => .ok { question := q, movie := mf.movie, speech := synth q.question }

/-! ## The current quiz engine (`begin` endpoint)

The repository sources here contain the collaborators of the current engine —
the four variant classes under `quiz/`, the request/response and session
models of `model.py`, and `FirestoreClient.update_usage_count` with its
`LimitExceededError` — but not the HTTP handler that wires them together.
Its behaviour is therefore modelled from the spec (§4.5, §6, §7) on top of
the source-embedded pieces. -/

/-- Embedded: `quiz_data: Union[TitleDetectivesData, SequelSaladData, BttfTriviaData,
TriviaData]` (`model.py`). -/
inductive VariantQuizData where
  | titleDetectives (d : TitleDetectivesData)
  | sequelSalad (d : SequelSaladData)
  | bttfTrivia (d : BttfTriviaData)
  | trivia (d : TriviaData)
  deriving Repr, DecidableEq

/-- Embedded: `SessionData` (`model.py:157-163`). -/
structure EngineSessionData where
  quiz_id : String
  quiz_type : QuizType
  quiz_data : VariantQuizData
  chat : Nat
  started_at : Nat
  deriving Repr, DecidableEq

/-- Embedded: `StartQuizResponse` (`model.py:141-144`). -/
structure EngineStartQuizResponse where
  quiz_id : String
  quiz_type : QuizType
  quiz_data : VariantQuizData
  deriving Repr, DecidableEq

/-- Errors of the engine's `begin`: quota exhaustion is HTTP 429 with a body
carrying the variant, the current usage and the limit (spec §6/§7,
transporting the fields of `LimitExceededError` from `storage.py:20-26`);
everything else keeps its `Err`. -/
inductive EngineError where
  | quotaExceeded (quiz_type : QuizType) (currentUsage : Nat) (limit : Nat)
  | other (e : Err)
  deriving Repr, DecidableEq

/-- The collaborator outcomes a `begin` run may consume. -/
structure EngineOracles where
  movie : Option Movie
  titleReply : ChatResult GeminiQuestion
  franchisesDoc : Option (List String)
  choiceIdx : Nat
  sequelReply : ChatResult SequelSaladGeminiQuestion
  attemptOk : String → Bool
  fileId : String
  bttfFacts : Except String String
  bttfReply : ChatResult BttfTriviaGeminiQuestion
  movieFacts : Except String MovieFacts
  triviaReply : ChatResult TriviaGeminiQuestion
  synth : String → String

/-- Dispatch to the selected variant's `begin` (the variant implementations
are the source-embedded functions above). -/
def dispatchBegin (quizType : QuizType) (o : EngineOracles) :
    Except Err VariantQuizData :=
  match quizType with
  | .titleDetectives =>
      (startTitleDetectives o.movie o.titleReply o.synth).map .titleDetectives
  | .sequelSalad =>
      ((startSequelSalad o.franchisesDoc o.choiceIdx o.sequelReply
          o.attemptOk o.fileId o.synth).1).map .sequelSalad
  | .bttfTrivia =>
      (startBttfTrivia o.bttfFacts o.bttfReply o.synth).map .bttfTrivia
  | .trivia =>
      (startTrivia o.movieFacts o.triviaReply o.synth).map .trivia

/-- Modelled from the spec: the engine's `begin(variant, personality)`
endpoint (its HTTP handler is not among the sources; `update_usage_count`,
the variant classes and the session/response models are).  Spec §4.5: "calls
`UsageLimiter.checkAndIncrement(variant)` first — if it fails, no session is
created and no generator call is made; then dispatches to the variant's
`begin`, stores the resulting session keyed by a freshly generated id, and
returns the payload"; §6: on quota exhaustion the response is `429` with
`{variant, currentUsage, limit}`.  Returns
`(result, usage document, session cache)`. -/
def startQuizEngine (limits : QuizType → Option Nat)
    (usageDoc : Option UsageCounts) (cache : Cache EngineSessionData)
    (now : Nat) (quizId : String) (chatId : Nat) (quizType : QuizType)
    (o : EngineOracles) :
    Except EngineError EngineStartQuizResponse
      × Option UsageCounts × Cache EngineSessionData :=
  match updateUsageCount limits usageDoc quizType with
  | .error (.limitExceeded qt usage limit) =>
      (.error (.quotaExceeded qt usage limit), usageDoc, cache)
  | .error (.valueError m) =>
      (.error (.other (.valueError m)), usageDoc, cache)
  | .ok (_, counts') =>
    match dispatchBegin quizType o with
    | .error e => (.error (.other e), some counts', cache)
    | .ok quizData =>
      let cache' := cachePut now quizId
        { quiz_id := quizId, quiz_type := quizType, quiz_data := quizData
          chat := chatId, started_at := now } cache
      (.ok { quiz_id := quizId, quiz_type := quizType, quiz_data := quizData },
        some counts', cache')

/-! ## Cache lemmas -/

theorem cacheGet_cacheDel {α : Type} (now : Nat) (key : String) (c : Cache α) :
    cacheGet now key (cacheDel key c) = none := by
  have h : (cacheDel key c).find? (fun e => e.1 == key) = none := by
    rw [List.find?_eq_none]
    intro x hx
    have hq := (List.mem_filter.mp hx).2
    simp only [bne_iff_ne, ne_eq, decide_eq_true_eq] at hq
    simp [hq]
  simp [cacheGet, h]

theorem cacheGet_none_mono {α : Type} {n₁ n₂ : Nat} {key : String}
    {c : Cache α} (h : cacheGet n₁ key c = none) (hle : n₁ ≤ n₂) :
    cacheGet n₂ key c = none := by
  unfold cacheGet at h ⊢
  cases hf : c.find? (fun e => e.1 == key) with
  | none => simp [hf]
  | some e =>
    simp only [hf] at h ⊢
    by_cases hlt : n₁ < e.2.2
    · simp [hlt] at h
    · have h2 : ¬ n₂ < e.2.2 := by omega
      simp [h2]

/-- After `cache[key] = v` at time `t` the entry is physically present (at
the most recent insertion position), carrying expiry `t + ttl`. -/
theorem cachePut_find? {α : Type} (t : Nat) (key : String) (v : α)
    (c : Cache α) :
    (cachePut t key v c).find? (fun e => e.1 == key) =
      some (key, v, t + sessionTtl) := by
  unfold cachePut cacheShrink
  set l := (c.filter (fun e => t < e.2.2)).filter (fun e => e.1 != key) with hl
  set x : String × α × Nat := (key, v, t + sessionTtl) with hx
  have hlen : (l ++ [x]).length - sessionMaxsize ≤ l.length := by
    simp [List.length_append, sessionMaxsize]
  rw [List.drop_append_of_le_length hlen]
  have hnone : (l.drop ((l ++ [x]).length - sessionMaxsize)).find?
      (fun e => e.1 == key) = none := by
    rw [List.find?_eq_none]
    intro e he
    have hmem : e ∈ l := List.drop_subset _ l he
    have hq := (List.mem_filter.mp hmem).2
    simp only [bne_iff_ne, ne_eq, decide_eq_true_eq] at hq
    simp [hq]
  rw [List.find?_append, hnone]
  simp [hx]

theorem cacheGet_cachePut {α : Type} (t t' : Nat) (key : String) (v : α)
    (c : Cache α) :
    cacheGet t' key (cachePut t key v c) =
      if t' < t + sessionTtl then some v else none := by
  unfold cacheGet
  rw [cachePut_find? t key v c]

/-- The post-state of `finish_quiz`: when the session was found, it has been
deleted — for every evaluation outcome; when it was not found, the cache is
untouched. -/
theorem finishQuiz_snd (cache : Cache SessionData) (now : Nat) (quizId : String)
    (ans : String) (reply : ChatResult GeminiAnswer) (synth : String → String) :
    (finishQuiz cache now quizId ans reply synth).2 =
      match cacheGet now quizId cache with
      | none => cache
      | some _ => cacheDel quizId cache := by
  unfold finishQuiz
  cases hget : cacheGet now quizId cache with
  | none => rfl
  | some sd =>
    obtain ⟨qid, qd, chat, st⟩ := sd
    cases reply with
    | error m => rfl
    | ok r =>
      cases r with
      | malformed raw => rfl
      | wellFormed ga => cases qd <;> rfl

/-! ## C1: exactly-once consumption of sessions -/

/-- **C1**: For every session id, after a first call to `complete`
(`finish_quiz`) for that id has run — whatever the outcome of the
answer-evaluation call, success, malformed reply or transport failure — the
session is deleted from the store, and a second call to `complete` with the
same id fails with HTTP 404 `'Session not found'`: every session is consumed
exactly once. -/
theorem complete_consumes_session_exactly_once
    (cache : Cache SessionData) (now₁ now₂ : Nat) (quizId : String)
    (ans₁ ans₂ : String) (reply₁ reply₂ : ChatResult GeminiAnswer)
    (synth₁ synth₂ : String → String) (sd : SessionData)
    (hget : cacheGet now₁ quizId cache = some sd) :
    (finishQuiz cache now₁ quizId ans₁ reply₁ synth₁).2 = cacheDel quizId cache
    ∧ (finishQuiz (finishQuiz cache now₁ quizId ans₁ reply₁ synth₁).2
        now₂ quizId ans₂ reply₂ synth₂).1
      = .error (.httpError 404 "Session not found") := by
  have hsnd := finishQuiz_snd cache now₁ quizId ans₁ reply₁ synth₁
  rw [hget] at hsnd
  refine ⟨hsnd, ?_⟩
  rw [hsnd]
  have h2 : cacheGet now₂ quizId (cacheDel quizId cache) = none :=
    cacheGet_cacheDel now₂ quizId cache
  unfold finishQuiz
  rw [h2]

/-- A concrete movie record used by the witnesses and counterexamples. -/
def sampleMovie : Movie :=
  { title := "Inception", tagline := "Your mind is the scene of the crime"
    overview := "ov", genres := ["Science Fiction"], budget := 160000000
    revenue := 839030630, vote_average := 83, vote_count := 34000
    release_date := "2010-07-15", runtime := 148 }

/-- A concrete stored title-detectives session. -/
def sampleSession : SessionData :=
  { quiz_id := "q1"
    quiz_data := .titleDetectives
      { question := { question := "riddle", hint1 := "h1", hint2 := "h2" }
        movie := sampleMovie, speech := "/audio/a.mp3" }
    chat := 1, started_at := 0 }

/-- A concrete session cache holding `sampleSession` under id `"q1"`,
expiring at time 600. -/
def sampleCache : Cache SessionData := [("q1", sampleSession, 600)]

/-- Witness for C1 at a concrete input: the session `"q1"` is present at the
first call (whose evaluation fails with a malformed reply) and the second
call fails with `'Session not found'`. -/
theorem complete_consumes_session_exactly_once_witness :
    (finishQuiz sampleCache 0 "q1" "Inception" (.ok (.malformed "oops"))
        (fun _ => "/audio/f.mp3")).2 = cacheDel "q1" sampleCache
    ∧ (finishQuiz (finishQuiz sampleCache 0 "q1" "Inception"
          (.ok (.malformed "oops")) (fun _ => "/audio/f.mp3")).2
        5 "q1" "Inception" (.ok (.wellFormed { points := 3, answer := "ok" }))
        (fun _ => "/audio/g.mp3")).1
      = .error (.httpError 404 "Session not found") :=
  complete_consumes_session_exactly_once sampleCache 0 5 "q1" "Inception"
    "Inception" (.ok (.malformed "oops"))
    (.ok (.wellFormed { points := 3, answer := "ok" }))
    (fun _ => "/audio/f.mp3") (fun _ => "/audio/g.mp3") sampleSession (by rfl)

/-! ## C5: sessions become unreachable after the TTL -/

/-- **C5**: For every session `put` into the session store at time `t`, a
`get` for its id strictly before `t + 600` (the `ttl=600` of
`session_cache`) returns the stored session; at any time from `t + 600` on —
so in particular at any time later than `t + 600` — `get` returns absent,
even though the entry is still physically present in the store, and
`finish_quiz` maps that absence to HTTP 404 `'Session not found'`. -/
theorem session_unreachable_after_ttl
    (cache : Cache SessionData) (t t' : Nat) (quizId : String)
    (sd : SessionData) (ans : String) (reply : ChatResult GeminiAnswer)
    (synth : String → String) :
    ((cachePut t quizId sd cache).find? (fun e => e.1 == quizId)
        = some (quizId, sd, t + sessionTtl))
    ∧ (t' < t + sessionTtl →
        cacheGet t' quizId (cachePut t quizId sd cache) = some sd)
    ∧ (t + sessionTtl ≤ t' →
        cacheGet t' quizId (cachePut t quizId sd cache) = none
        ∧ (finishQuiz (cachePut t quizId sd cache) t' quizId ans reply synth).1
            = .error (.httpError 404 "Session not found")) := by
  have hget := cacheGet_cachePut t t' quizId sd cache
  refine ⟨cachePut_find? t quizId sd cache, ?_, ?_⟩
  · intro hlt
    rw [hget, if_pos hlt]
  · intro hge
    have hnone : cacheGet t' quizId (cachePut t quizId sd cache) = none := by
      rw [hget, if_neg (by omega)]
    refine ⟨hnone, ?_⟩
    unfold finishQuiz
    rw [hnone]

/-- Witness for C5 at concrete inputs: `put` at `t = 0`, `get` at `t' = 599`
returns the session, `get` at `t' = 601 > 600` is absent and `finish_quiz`
at 601 answers `'Session not found'` although the entry is physically
present. -/
theorem session_unreachable_after_ttl_witness :
    ((cachePut 0 "q1" sampleSession []).find? (fun e => e.1 == "q1")
        = some ("q1", sampleSession, 0 + sessionTtl))
    ∧ cacheGet 599 "q1" (cachePut 0 "q1" sampleSession []) = some sampleSession
    ∧ cacheGet 601 "q1" (cachePut 0 "q1" sampleSession []) = none
    ∧ (finishQuiz (cachePut 0 "q1" sampleSession []) 601 "q1" "Inception"
        (.ok (.wellFormed { points := 3, answer := "ok" }))
        (fun _ => "/audio/f.mp3")).1
      = .error (.httpError 404 "Session not found") := by
  have h₁ := session_unreachable_after_ttl [] 0 599 "q1" sampleSession
    "Inception" (.ok (.wellFormed { points := 3, answer := "ok" }))
    (fun _ => "/audio/f.mp3")
  have h₂ := session_unreachable_after_ttl [] 0 601 "q1" sampleSession
    "Inception" (.ok (.wellFormed { points := 3, answer := "ok" }))
    (fun _ => "/audio/f.mp3")
  exact ⟨h₁.1, h₁.2.1 (by decide), (h₂.2.2 (by decide)).1, (h₂.2.2 (by decide)).2⟩

/-! ## C2: usage limiter lemmas -/

/-- A successful `_update_usage_count` presupposes the current count is below
the limit, returns exactly that count plus one, stores exactly that count
plus one under the variant, and leaves every other variant's count
unchanged. -/
theorem updateUsageCount_ok {limits : QuizType → Option Nat} {qt : QuizType}
    {L : Nat} (hL : limits qt = some L) {doc : Option UsageCounts} {c : Nat}
    {counts' : UsageCounts}
    (h : updateUsageCount limits doc qt = .ok (c, counts')) :
    usageCount doc qt < L ∧ c = usageCount doc qt + 1
    ∧ counts' qt = usageCount doc qt + 1
    ∧ ∀ qt', qt' ≠ qt → counts' qt' = usageCount doc qt' := by
  unfold updateUsageCount at h
  rw [hL] at h
  simp only at h
  by_cases hle : L ≤ (doc.getD initialCounts) qt
  · rw [if_pos hle] at h
    exact absurd h (by simp)
  · rw [if_neg hle] at h
    have hc : c = (doc.getD initialCounts) qt + 1 ∧
        counts' = Function.update (doc.getD initialCounts) qt
          ((doc.getD initialCounts) qt + 1) := by
      have := h
      injection this with h1
      injection h1 with h2 h3
      exact ⟨h2.symm, h3.symm⟩
    obtain ⟨hc1, hc2⟩ := hc
    refine ⟨by simpa [usageCount] using Nat.lt_of_not_le hle,
      by simpa [usageCount] using hc1, ?_, ?_⟩
    · simp [usageCount, hc2]
    · intro qt' hne
      simp [usageCount, hc2, Function.update_noteq hne]

/-- Embedded: `_update_usage_count` at or above the limit raises
`LimitExceededError(quiz_type, current_count, limit)` (and, the transaction
rolling back, commits nothing). -/
theorem updateUsageCount_limit {limits : QuizType → Option Nat} {qt : QuizType}
    {L : Nat} (hL : limits qt = some L) (doc : Option UsageCounts)
    (hge : L ≤ usageCount doc qt) :
    updateUsageCount limits doc qt
      = .error (.limitExceeded qt (usageCount doc qt) L) := by
  unfold usageCount at hge
  unfold updateUsageCount
  rw [hL]
  simp only [if_pos hge]
  rfl

/-- After `k ≤ limit` calls from a fresh day, each call `i` has succeeded
returning `i` and the stored count is `k`. -/
theorem runUsageCalls_le {limits : QuizType → Option Nat} {qt : QuizType}
    {L : Nat} (hL : limits qt = some L) :
    ∀ k, k ≤ L →
      (runUsageCalls limits qt k).1
          = (List.range k).map (fun i => .ok (i + 1))
      ∧ usageCount (runUsageCalls limits qt k).2 qt = k := by
  intro k
  induction k with
  | zero => intro _; simp [runUsageCalls, usageCount, initialCounts]
  | succ n ih =>
    intro hk
    obtain ⟨ih1, ih2⟩ := ih (by omega)
    have hcur : (((runUsageCalls limits qt n).2).getD initialCounts) qt = n := ih2
    have hupd : updateUsageCount limits (runUsageCalls limits qt n).2 qt
        = .ok (n + 1, Function.update
            (((runUsageCalls limits qt n).2).getD initialCounts) qt (n + 1)) := by
      unfold updateUsageCount
      rw [hL]
      dsimp only
      simp only [hcur]
      rw [if_neg (by omega)]
    constructor
    · show (runUsageCalls limits qt (n + 1)).1 = _
      unfold runUsageCalls
      dsimp only
      rw [hupd]
      simp [ih1, List.range_succ]
    · show usageCount (runUsageCalls limits qt (n + 1)).2 qt = n + 1
      unfold runUsageCalls
      dsimp only
      rw [hupd]
      simp [usageCount]

/-- **C2**: For every variant with a configured limit `L` and a fresh day's
counter: each of the first `L` calls to `update_usage_count` succeeds,
returning the incremented counts `1..L`; the `(L+1)`-th call fails with
`LimitExceededError` carrying `currentUsage = L` and `limit = L`; the stored
count never exceeds `L`; and a successful call changes the stored count by
exactly `+1` for that variant and not at all for the others. -/
theorem usage_limiter_check_and_increment
    (limits : QuizType → Option Nat) (qt : QuizType) (L : Nat)
    (hL : limits qt = some L) :
    (runUsageCalls limits qt L).1 = (List.range L).map (fun i => .ok (i + 1))
    ∧ (runUsageCalls limits qt (L + 1)).1
        = ((List.range L).map (fun i => .ok (i + 1)))
          ++ [.error (.limitExceeded qt L L)]
    ∧ (∀ n, usageCount (runUsageCalls limits qt n).2 qt ≤ L)
    ∧ (∀ doc c counts', updateUsageCount limits doc qt = .ok (c, counts') →
        c = usageCount doc qt + 1 ∧ counts' qt = usageCount doc qt + 1
        ∧ ∀ qt', qt' ≠ qt → counts' qt' = usageCount doc qt') := by
  obtain ⟨h1, h2⟩ := runUsageCalls_le hL L (le_refl L)
  refine ⟨h1, ?_, ?_, ?_⟩
  · have hfail : updateUsageCount limits (runUsageCalls limits qt L).2 qt
        = .error (.limitExceeded qt L L) := by
      have := updateUsageCount_limit hL (runUsageCalls limits qt L).2 (by omega)
      rwa [h2] at this
    show (runUsageCalls limits qt (L + 1)).1 = _
    unfold runUsageCalls
    dsimp only
    rw [hfail]
    simp [h1]
  · intro n
    induction n with
    | zero => simp [runUsageCalls, usageCount, initialCounts]
    | succ m ihm =>
      show usageCount (runUsageCalls limits qt (m + 1)).2 qt ≤ L
      unfold runUsageCalls
      dsimp only
      cases hupd : updateUsageCount limits (runUsageCalls limits qt m).2 qt with
      | ok p =>
        obtain ⟨c, counts'⟩ := p
        obtain ⟨hlt, _, hstore, _⟩ := updateUsageCount_ok hL hupd
        have : counts' qt ≤ L := by
          rw [hstore]
          omega
        simpa [usageCount] using this
      | error e => simpa [usageCount] using ihm
  · intro doc c counts' h
    obtain ⟨_, h2', h3', h4'⟩ := updateUsageCount_ok hL h
    exact ⟨h2', h3', h4'⟩

/-- Witness for C2 at a concrete input: variant `trivia` with limit 2 — the
first two calls return 1 and 2, the third fails with
`LimitExceededError(trivia, 2, 2)`. -/
theorem usage_limiter_check_and_increment_witness :
    (runUsageCalls (fun _ => some 2) .trivia 2).1
        = (List.range 2).map (fun i => .ok (i + 1))
    ∧ (runUsageCalls (fun _ => some 2) .trivia 3).1
        = ((List.range 2).map (fun i => .ok (i + 1)))
          ++ [.error (.limitExceeded .trivia 2 2)]
    ∧ (∀ n, usageCount (runUsageCalls (fun _ => some 2) .trivia n).2 .trivia ≤ 2)
    ∧ (∀ doc c counts',
        updateUsageCount (fun _ => some 2) doc .trivia = .ok (c, counts') →
        c = usageCount doc .trivia + 1
        ∧ counts' .trivia = usageCount doc .trivia + 1
        ∧ ∀ qt', qt' ≠ .trivia → counts' qt' = usageCount doc qt') := by
  have h := usage_limiter_check_and_increment (fun _ => some 2) .trivia 2 rfl
  exact h

/-! ## C3 / C4: the retry wrapper -/

/-- When every remaining attempt raises `ValueError`, the loop performs all
of them, sleeping between consecutive ones, and re-raises the error of the
last attempt. -/
theorem retryFrom_all_valueError {α : Type} (maxRetries : Nat)
    (attempts : Nat → Except Err α) :
    ∀ k i, i + k = maxRetries → 1 ≤ k →
      (∀ j, i ≤ j → j < maxRetries → ∃ m, attempts j = .error (.valueError m)) →
      retryFrom maxRetries attempts i
        = { result := some (attempts (maxRetries - 1)), calls := k, sleeps := k - 1 } := by
  intro k
  induction k with
  | zero => intro i _ h1; omega
  | succ n ih =>
    intro i hik _ hall
    have hi : i < maxRetries := by omega
    obtain ⟨m, hm⟩ := hall i (le_refl i) hi
    unfold retryFrom
    rw [dif_pos hi, hm]
    dsimp only [Err.isValueError]
    rw [if_pos (show (true : Bool) = true from rfl)]
    by_cases hlast : i < maxRetries - 1
    · have hn1 : 1 ≤ n := by omega
      rw [if_pos hlast, ih (i + 1) (by omega) hn1
        (fun j hj hj' => hall j (by omega) hj')]
      dsimp only
      rw [show n - 1 + 1 = n + 1 - 1 from by omega]
    · have hieq : maxRetries - 1 = i := by omega
      have hn0 : n = 0 := by omega
      rw [if_neg hlast, hieq, hm, hn0]

/-- A re-invocation of the wrapped call only ever happens after an attempt
that raised `ValueError`: attempt `i + j` is followed by attempt `i + j + 1`
only if it was a parse failure. -/
theorem retryFrom_reinvoke_only_on_valueError {α : Type} (maxRetries : Nat)
    (attempts : Nat → Except Err α) :
    ∀ k i, maxRetries - i = k →
      ∀ j, j + 1 < (retryFrom maxRetries attempts i).calls →
        ∃ m, attempts (i + j) = .error (.valueError m) := by
  intro k
  induction k with
  | zero =>
    intro i hk j hj
    have hi : ¬ i < maxRetries := by omega
    unfold retryFrom at hj
    rw [dif_neg hi] at hj
    simp at hj
  | succ n ih =>
    intro i hk j hj
    have hi : i < maxRetries := by omega
    unfold retryFrom at hj
    rw [dif_pos hi] at hj
    cases hatt : attempts i with
    | ok a => rw [hatt] at hj; simp at hj
    | error e =>
      rw [hatt] at hj
      cases he : e.isValueError with
      | false => simp [he] at hj
      | true =>
        simp only [he, if_true] at hj
        by_cases hlast : i < maxRetries - 1
        · rw [if_pos hlast] at hj
          simp only at hj
          cases j with
          | zero =>
            obtain ⟨m, hm⟩ : ∃ m, e = .valueError m := by
              cases e with
              | valueError m => exact ⟨m, rfl⟩
              | httpError c d => simp [Err.isValueError] at he
            exact ⟨m, by simpa [hm] using hatt⟩
          | succ j' =>
            have hj' : j' + 1 < (retryFrom maxRetries attempts (i + 1)).calls := by
              omega
            obtain ⟨m, hm⟩ := ih (i + 1) (by omega) j' hj'
            exact ⟨m, by rw [show i + (j' + 1) = i + 1 + j' by omega]; exact hm⟩
        · rw [if_neg hlast] at hj
          simp at hj

/-- A first attempt that raises anything but `ValueError` ends the wrapper at
once: one invocation, no sleep, the exception propagates. -/
theorem retryRun_non_valueError {α : Type} (maxRetries : Nat)
    (attempts : Nat → Except Err α) (h1 : 1 ≤ maxRetries) (e : Err)
    (h0 : attempts 0 = .error e) (hve : e.isValueError = false) :
    retryRun maxRetries attempts
      = { result := some (.error e), calls := 1, sleeps := 0 } := by
  unfold retryRun retryFrom
  rw [dif_pos (by omega : 0 < maxRetries), h0]
  dsimp only
  rw [hve]
  rw [if_neg (by simp)]

/-- **C3**: For every `maxRetries ≥ 1`: if every generation attempt yields
malformed output (the parser raises `ValueError` each time), the `retry`
wrapper invokes the wrapped call exactly `maxRetries` times, with the fixed
`sleep(1)` delay between consecutive attempts (`maxRetries - 1` sleeps), and
then raises the error of the last attempt; if the first attempt yields
well-formed output, exactly one call is made and its result is returned. -/
theorem retry_invocation_count {α : Type} (maxRetries : Nat)
    (attempts : Nat → Except Err α) (h1 : 1 ≤ maxRetries) :
    ((∀ j, j < maxRetries → ∃ m, attempts j = .error (.valueError m)) →
      retryRun maxRetries attempts
        = { result := some (attempts (maxRetries - 1)), calls := maxRetries
            sleeps := maxRetries - 1 })
    ∧ (∀ a, attempts 0 = .ok a →
        retryRun maxRetries attempts
          = { result := some (.ok a), calls := 1, sleeps := 0 }) := by
  constructor
  · intro hall
    exact retryFrom_all_valueError maxRetries attempts maxRetries 0 (by omega) h1
      (fun j _ hj => hall j hj)
  · intro a ha
    unfold retryRun retryFrom
    rw [dif_pos (by omega : 0 < maxRetries), ha]

/-- Witness for C3 at concrete inputs: with `maxRetries = 3`, three always-
malformed attempts give 3 calls, 2 sleeps and the last parse error; a
well-formed first attempt gives exactly one call and its value. -/
theorem retry_invocation_count_witness :
    retryRun 3 (fun _ => (.error (.valueError "bad") : Except Err GeminiAnswer))
      = { result := some (.error (.valueError "bad")), calls := 3, sleeps := 2 }
    ∧ retryRun 3
        (fun _ => (.ok { points := 3, answer := "ok" } : Except Err GeminiAnswer))
      = { result := some (.ok { points := 3, answer := "ok" })
          calls := 1, sleeps := 0 } := by
  constructor
  · exact (retry_invocation_count 3
      (fun _ => (.error (.valueError "bad") : Except Err GeminiAnswer))
      (by omega)).1 (fun j _ => ⟨"bad", rfl⟩)
  · exact (retry_invocation_count 3
      (fun _ => (.ok { points := 3, answer := "ok" } : Except Err GeminiAnswer))
      (by omega)).2 _ rfl

/-- **C4**: Only parsing failures (`ValueError`, i.e. malformed generator
output) ever cause the retry machinery to re-invoke the wrapped generating
call: whenever attempt `j + 1` happens, attempt `j` raised `ValueError`.  A
non-`ValueError` first outcome is surfaced immediately after exactly one
call; in particular, a `GoogleAPIError` from the generator inside
`start_title_detectives` — converted there to HTTP 500
`'Google API error: ...'` — is surfaced by the wrapper after exactly one
invocation, with no retry. -/
theorem retry_only_on_parse_failures {α : Type} (maxRetries : Nat)
    (attempts : Nat → Except Err α) (h1 : 1 ≤ maxRetries) :
    (∀ e, attempts 0 = .error e → e.isValueError = false →
      retryRun maxRetries attempts
        = { result := some (.error e), calls := 1, sleeps := 0 })
    ∧ (∀ j, j + 1 < (retryRun maxRetries attempts).calls →
        ∃ m, attempts j = .error (.valueError m))
    ∧ (∀ (movie : Movie) (apiMsg : String) (synth : String → String)
        (mr : Nat), 1 ≤ mr →
        retryRun mr (fun _ => startTitleDetectives (some movie) (.error apiMsg) synth)
          = { result := some (.error (.httpError 500 ("Google API error: " ++ apiMsg)))
              calls := 1, sleeps := 0 }) := by
  refine ⟨fun e h0 hve => retryRun_non_valueError maxRetries attempts h1 e h0 hve,
    fun j hj => ?_, fun movie apiMsg synth mr hmr => ?_⟩
  · have h := retryFrom_reinvoke_only_on_valueError maxRetries attempts
      maxRetries 0 (by omega) j hj
    simpa using h
  · exact retryRun_non_valueError mr _ hmr _ rfl rfl

/-- Witness for C4 at concrete inputs: a non-`ValueError` outcome is
surfaced after exactly one of the three allowed attempts, both for a bare
wrapped call and for `start_title_detectives` hitting a `GoogleAPIError`. -/
theorem retry_only_on_parse_failures_witness :
    retryRun 3 (fun _ => (.error (.httpError 500 "x") : Except Err GeminiQuestion))
      = { result := some (.error (.httpError 500 "x")), calls := 1, sleeps := 0 }
    ∧ retryRun 3 (fun _ => startTitleDetectives (some sampleMovie)
        (.error "boom") (fun _ => "/audio/s.mp3"))
      = { result := some (.error (.httpError 500 ("Google API error: " ++ "boom")))
          calls := 1, sleeps := 0 } := by
  have h := retry_only_on_parse_failures 3
    (fun _ => (.error (.httpError 500 "x") : Except Err GeminiQuestion)) (by omega)
  exact ⟨h.1 _ rfl rfl,
    h.2.2 sampleMovie "boom" (fun _ => "/audio/s.mp3") 3 (by omega)⟩

/-! ## C6: quota exhaustion rejects `begin` before any work -/

/-- A concrete, fully-populated set of collaborator outcomes. -/
def sampleOracles : EngineOracles :=
  { movie := some sampleMovie
    titleReply := .ok (.wellFormed { question := "riddle", hint1 := "h1", hint2 := "h2" })
    franchisesDoc := some ["A", "B"]
    choiceIdx := 0
    sequelReply := .ok (.wellFormed
      { sequel_plot := "plot", sequel_title := "title", poster_prompt := "p" })
    attemptOk := fun _ => true
    fileId := "f1"
    bttfFacts := .ok "facts"
    bttfReply := .ok (.wellFormed
      { question := "q", option_1 := "o1", option_2 := "o2", option_3 := "o3"
        option_4 := "o4", correct_answer := 4 })
    movieFacts := .ok { movie_title := "Inception", facts := "facts", movie := sampleMovie }
    triviaReply := .ok (.wellFormed
      { question := "q", option_1 := "o1", option_2 := "o2", option_3 := "o3"
        option_4 := "o4", correct_answer := 2 })
    synth := fun _ => "/audio/s.mp3" }

/-- **C6**: Whenever the daily usage limit for a variant is already reached,
the engine's `begin` fails with the 429 quota error carrying the variant,
the current usage and the limit; the usage document and the session store are
unchanged (no session is created) and the outcome is independent of every
collaborator oracle — in particular, no generator call is made.  (The
`begin` handler itself is modelled from the spec; the limiter it runs first
is the source-embedded `_update_usage_count`.) -/
theorem begin_rejected_when_quota_reached (limits : QuizType → Option Nat)
    (usageDoc : Option UsageCounts) (cache : Cache EngineSessionData)
    (now : Nat) (quizId : String) (chatId : Nat) (qt : QuizType)
    (o : EngineOracles) (L : Nat) (hL : limits qt = some L)
    (hge : L ≤ usageCount usageDoc qt) :
    startQuizEngine limits usageDoc cache now quizId chatId qt o
      = (.error (.quotaExceeded qt (usageCount usageDoc qt) L), usageDoc, cache)
    ∧ (∀ o', startQuizEngine limits usageDoc cache now quizId chatId qt o'
        = startQuizEngine limits usageDoc cache now quizId chatId qt o) := by
  have hfail := updateUsageCount_limit hL usageDoc hge
  constructor
  · unfold startQuizEngine
    rw [hfail]
  · intro o'
    unfold startQuizEngine
    rw [hfail]

/-- Witness for C6 at a concrete input: limit 1, current usage 1 for
`bttf-trivia` — `begin` answers the 429 quota error `(bttf-trivia, 1, 1)`,
stores nothing, and its outcome does not depend on any collaborator. -/
theorem begin_rejected_when_quota_reached_witness :
    startQuizEngine (fun _ => some 1) (some (fun _ => 1)) [] 0 "q1" 7
        .bttfTrivia sampleOracles
      = (.error (.quotaExceeded .bttfTrivia 1 1), some (fun _ => 1), [])
    ∧ (∀ o', startQuizEngine (fun _ => some 1) (some (fun _ => 1)) [] 0 "q1" 7
          .bttfTrivia o'
        = startQuizEngine (fun _ => some 1) (some (fun _ => 1)) [] 0 "q1" 7
          .bttfTrivia sampleOracles) :=
  begin_rejected_when_quota_reached (fun _ => some 1) (some (fun _ => 1)) []
    0 "q1" 7 .bttfTrivia sampleOracles 1 rfl (Nat.le_refl 1)

/-! ## C7: the visible `begin` payload and the reference answer -/

/-- Counterexample to **C7** at a concrete input: a title-detectives `begin`
for the movie `"Inception"` returns, in the visible payload, the full
reference movie record — `quiz_data.movie.title` is `"Inception"`, the very
reference title `complete` is judged against — so the payload does contain
the reference correct answer. -/
theorem begin_payload_reveals_reference_counterexample :
    (startQuiz [] 0 "q1" 7 .titleDetectives (some sampleMovie)
        (.ok (.wellFormed { question := "riddle", hint1 := "h1", hint2 := "h2" }))
        (fun _ => "/audio/a.mp3")).1
      = .ok { quiz_id := "q1", quiz_type := .titleDetectives
              quiz_data := .titleDetectives
                { question := { question := "riddle", hint1 := "h1", hint2 := "h2" }
                  movie := sampleMovie, speech := "/audio/a.mp3" } }
    ∧ sampleMovie.title = "Inception" :=
  ⟨rfl, rfl⟩

/-- **C7 (amended)**: `begin` returns in the visible payload exactly the
`quiz_data` it stores in the session — for TitleDetectives this includes the
reference movie record with its title, i.e. the reference answer is echoed to
the caller rather than withheld — and the stored session (same payload plus
the conversation handle) contains enough information for `complete` to
proceed and score. -/
theorem begin_payload_equals_session_payload
    (cache : Cache SessionData) (now : Nat) (quizId : String) (chatId : Nat)
    (qt : QuizType) (movie : Option Movie) (reply : ChatResult GeminiQuestion)
    (synth : String → String) (resp : StartQuizResponse)
    (cache' : Cache SessionData)
    (h : startQuiz cache now quizId chatId qt movie reply synth
          = (.ok resp, cache')) :
    cacheGet now quizId cache'
      = some { quiz_id := quizId, quiz_data := resp.quiz_data
               chat := chatId, started_at := now }
    ∧ (∀ m, movie = some m → qt = .titleDetectives →
        ∃ d, resp.quiz_data = .titleDetectives d ∧ d.movie = m) := by
  have hfresh : now < now + sessionTtl := by simp [sessionTtl]
  cases qt with
  | titleDetectives =>
    cases movie with
    | none =>
      unfold startQuiz startTitleDetectives at h
      simp [Except.map] at h
    | some m =>
      cases reply with
      | error apiMsg =>
        unfold startQuiz startTitleDetectives at h
        simp [Except.map] at h
      | ok r =>
        cases r with
        | malformed raw =>
          unfold startQuiz startTitleDetectives parseGeminiReply at h
          simp [Except.map] at h
        | wellFormed q =>
          unfold startQuiz startTitleDetectives parseGeminiReply at h
          dsimp only [Except.map] at h
          rw [Prod.mk.injEq, Except.ok.injEq] at h
          obtain ⟨h1, h2⟩ := h
          subst h1
          subst h2
          constructor
          · rw [cacheGet_cachePut, if_pos hfresh]
          · intro m' hm' _
            injection hm' with hm''
            subst hm''
            exact ⟨_, rfl, rfl⟩
  | sequelSalad =>
    unfold startQuiz at h
    rw [Prod.mk.injEq, Except.ok.injEq] at h
    obtain ⟨h1, h2⟩ := h
    subst h1
    subst h2
    refine ⟨by rw [cacheGet_cachePut, if_pos hfresh], ?_⟩
    intro m hm hqt
    exact absurd hqt (by decide)
  | bttfTrivia =>
    unfold startQuiz at h
    rw [Prod.mk.injEq, Except.ok.injEq] at h
    obtain ⟨h1, h2⟩ := h
    subst h1
    subst h2
    refine ⟨by rw [cacheGet_cachePut, if_pos hfresh], ?_⟩
    intro m hm hqt
    exact absurd hqt (by decide)
  | trivia =>
    unfold startQuiz at h
    rw [Prod.mk.injEq, Except.ok.injEq] at h
    obtain ⟨h1, h2⟩ := h
    subst h1
    subst h2
    refine ⟨by rw [cacheGet_cachePut, if_pos hfresh], ?_⟩
    intro m hm hqt
    exact absurd hqt (by decide)

/-- The concrete well-formed riddle used by the C7 witness. -/
def sampleQuestion : GeminiQuestion :=
  { question := "riddle", hint1 := "h1", hint2 := "h2" }

/-- The concrete title-detectives payload a successful `begin` produces for
`sampleMovie` and `sampleQuestion`. -/
def sampleTitleData : TitleDetectivesData :=
  { question := sampleQuestion, movie := sampleMovie, speech := "/audio/a.mp3" }

/-- The concrete `begin` response for the C7 witness. -/
def sampleResponse : StartQuizResponse :=
  { quiz_id := "q1", quiz_type := .titleDetectives
    quiz_data := .titleDetectives sampleTitleData }

/-- The concrete session stored by that `begin`. -/
def sampleNewSession : SessionData :=
  { quiz_id := "q1", quiz_data := .titleDetectives sampleTitleData
    chat := 7, started_at := 0 }

/-- Witness for the amended C7 at a concrete input: the stored session holds
the very `quiz_data` the caller received, together with the chat handle, and
the visible payload carries the reference movie. -/
theorem begin_payload_equals_session_payload_witness :
    cacheGet 0 "q1" (cachePut 0 "q1" sampleNewSession [])
      = some { quiz_id := "q1", quiz_data := sampleResponse.quiz_data
               chat := 7, started_at := 0 }
    ∧ (∀ m, some sampleMovie = some m →
        QuizType.titleDetectives = .titleDetectives →
        ∃ d, sampleResponse.quiz_data = .titleDetectives d ∧ d.movie = m) :=
  begin_payload_equals_session_payload [] 0 "q1" 7 .titleDetectives
    (some sampleMovie) (.ok (.wellFormed sampleQuestion))
    (fun _ => "/audio/a.mp3") sampleResponse
    (cachePut 0 "q1" sampleNewSession []) rfl

/-! ## C8: multiple-choice scoring -/

/-- **C8**: For the BttfTrivia and Trivia variants, `complete` awards exactly
the fixed 3 points when the submitted option index equals the stored
question's `correct_answer` and exactly 0 otherwise, and in both cases —
regardless of correctness — the feedback text in the result is the one
produced through the session's conversation with the generator (the parsed
chat reply `ga`, also the text sent to speech synthesis).  The submitted
index is one of the four options (for Trivia, an out-of-range index hits the
`getattr` lookup and errors out before any evaluation). -/
theorem trivia_variants_score_by_exact_index
    (answer : Int) (qdB : BttfTriviaData) (qdT : TriviaData)
    (ga : BttfTriviaGeminiAnswer) (synth : String → String)
    (h1 : 1 ≤ answer) (h4 : answer ≤ 4) :
    finishBttfTrivia answer qdB (.ok (.wellFormed ga)) synth
      = .ok { question := qdB.question, user_answer := answer, result := ga
              points := if answer = qdB.question.correct_answer then 3 else 0
              speech := synth ga.answer }
    ∧ finishTrivia answer qdT (.ok (.wellFormed ga)) synth
      = .ok { question := qdT.question, movie := qdT.movie
              user_answer := answer, result := ga
              points := if answer = qdT.question.correct_answer then 3 else 0
              speech := synth ga.answer } := by
  refine ⟨rfl, ?_⟩
  interval_cases answer <;> rfl

/-- A concrete four-option question with the given correct index. -/
def mcQuestion (ca : Int) : BttfTriviaGeminiQuestion :=
  { question := "q", option_1 := "o1", option_2 := "o2", option_3 := "o3"
    option_4 := "o4", correct_answer := ca }

/-- Witness for C8 at concrete inputs: submitted index 2 against a question
whose correct index is 2 (BttfTrivia) and against one whose correct index is
4 (Trivia), feedback taken from the conversation in both cases. -/
theorem trivia_variants_score_by_exact_index_witness :
    finishBttfTrivia 2 { question := mcQuestion 2, speech := "/audio/q.mp3" }
        (.ok (.wellFormed { answer := "feedback" })) (fun s => "/audio/" ++ s)
      = .ok { question := mcQuestion 2, user_answer := 2
              result := { answer := "feedback" }
              points := if (2 : Int) = (mcQuestion 2).correct_answer then 3 else 0
              speech := "/audio/" ++ "feedback" }
    ∧ finishTrivia 2
        { question := mcQuestion 4, movie := sampleMovie, speech := "/audio/q.mp3" }
        (.ok (.wellFormed { answer := "feedback" })) (fun s => "/audio/" ++ s)
      = .ok { question := mcQuestion 4, movie := sampleMovie, user_answer := 2
              result := { answer := "feedback" }
              points := if (2 : Int) = (mcQuestion 4).correct_answer then 3 else 0
              speech := "/audio/" ++ "feedback" } :=
  trivia_variants_score_by_exact_index 2
    { question := mcQuestion 2, speech := "/audio/q.mp3" }
    { question := mcQuestion 4, movie := sampleMovie, speech := "/audio/q.mp3" }
    { answer := "feedback" } (fun s => "/audio/" ++ s) (by decide) (by decide)

/-! ## C9 / C10: SequelSalad and image generation -/

/-- Embedded: `generate_image` invoked without a fallback (the `sequel_salad.py` call
site) makes exactly one attempt, with the primary prompt. -/
theorem generateImage_no_fallback (attemptOk : String → Bool) (fileId : String)
    (prompt : String) :
    generateImage attemptOk fileId prompt none
      = ((if attemptOk prompt then some ("/images/" ++ fileId ++ ".png")
          else none), [prompt]) := by
  by_cases h : attemptOk prompt <;> simp [generateImage, fallbackTruthy, h]

/-- The generated sequel question used by the C9 scenario: its poster prompt
is `"p"`. -/
def sampleSequelQuestion : SequelSaladGeminiQuestion :=
  { sequel_plot := "plot", sequel_title := "title", poster_prompt := "p" }

/-- The payload the C9 scenario produces: franchise `"A"`, no poster. -/
def sampleSequelData : SequelSaladData :=
  { question := sampleSequelQuestion, franchise := "A"
    speech := "/audio/s.mp3", poster := none }

/-- The concrete `start_sequel_salad` run used by the C9 counterexample:
franchises `["A", "B"]`, a well-formed generated question whose poster
prompt is `"p"`, and an image model that fails on `"p"` but would succeed on
any other prompt — in particular on the fallback prompt for `"A"`. -/
def sequelCounterexampleRun : Except Err SequelSaladData × List String :=
  startSequelSalad (some ["A", "B"]) 0 (.ok (.wellFormed sampleSequelQuestion))
    (fun s => s != "p") "f1" (fun _ => "/audio/s.mp3")

/-- Counterexample to **C9** at a concrete input: image generation from the
poster prompt `"p"` fails and the fallback prompt referencing the chosen
franchise `"A"` would have succeeded, yet the run gives the poster up
(`poster = none`) after a single attempt (`["p"]`) — no second, fallback
attempt is made, because the `sequel_salad.py` call site passes no fallback
to `generate_image`. -/
theorem sequel_salad_no_fallback_counterexample :
    sequelCounterexampleRun.1 = .ok sampleSequelData
    ∧ sequelCounterexampleRun.2 = ["p"]
    ∧ (fun s => s != "p") (getFallbackPrompt "A") = true :=
  ⟨rfl, rfl, rfl⟩

/-- **C9 (amended)**: In `start_sequel_salad`, the returned franchise is
always an element of the managed franchise list; the run makes exactly one
image-generation attempt, with the question's poster prompt — no fallback
prompt is ever attempted, since the call site passes none — and when that
attempt fails the quiz starts with `poster = None`. -/
theorem sequel_salad_franchise_member_no_fallback
    (franchisesDoc : Option (List String)) (choiceIdx : Nat)
    (q : SequelSaladGeminiQuestion) (attemptOk : String → Bool)
    (fileId : String) (synth : String → String) (l : List String)
    (hfr : getFranchises franchisesDoc = .ok l)
    (d : SequelSaladData) (attempted : List String)
    (hrun : startSequelSalad franchisesDoc choiceIdx (.ok (.wellFormed q))
        attemptOk fileId synth = (.ok d, attempted)) :
    d.franchise ∈ l
    ∧ attempted = [q.poster_prompt]
    ∧ (attemptOk q.poster_prompt = false → d.poster = none) := by
  have hne : ¬ l.isEmpty := by
    unfold getFranchises at hfr
    cases franchisesDoc with
    | none => simp at hfr
    | some l' =>
      dsimp only at hfr
      by_cases he : l'.isEmpty
      · rw [if_pos he] at hfr; simp at hfr
      · rw [if_neg he] at hfr
        injection hfr with hfr'
        rw [← hfr']
        exact he
  have hlen : 0 < l.length := by
    simp [List.isEmpty_iff] at hne
    exact List.length_pos.mpr hne
  have hmem : l.getD (choiceIdx % l.length) "" ∈ l := by
    have hlt : choiceIdx % l.length < l.length := Nat.mod_lt _ hlen
    rw [List.getD_eq_getElem l "" hlt]
    exact List.getElem_mem hlt
  unfold startSequelSalad parseGeminiReply at hrun
  rw [hfr] at hrun
  dsimp only at hrun
  rw [generateImage_no_fallback] at hrun
  rw [Prod.mk.injEq, Except.ok.injEq] at hrun
  obtain ⟨h1, h2⟩ := hrun
  subst h1
  subst h2
  refine ⟨hmem, rfl, ?_⟩
  intro hfail
  simp [hfail]

/-- Witness for the amended C9 at a concrete input (the counterexample run):
franchise `"A" ∈ ["A", "B"]`, a single attempted prompt `["p"]`, and a
given-up poster. -/
theorem sequel_salad_franchise_member_no_fallback_witness :
    sampleSequelData.franchise ∈ ["A", "B"]
    ∧ (["p"] : List String) = [sampleSequelQuestion.poster_prompt]
    ∧ ((fun s => s != "p") sampleSequelQuestion.poster_prompt = false →
        sampleSequelData.poster = none) :=
  sequel_salad_franchise_member_no_fallback (some ["A", "B"]) 0
    sampleSequelQuestion (fun s => s != "p") "f1" (fun _ => "/audio/s.mp3")
    ["A", "B"] rfl sampleSequelData ["p"] rfl

/-- **C10**: `ImagenClient.generate_image` never raises — it is embedded as a
total function, every exception of the underlying model call being swallowed
inside `_try_generate_image` — and for every prompt it returns the image
reference `'/images/<id>.png'` exactly when some attempt (the primary one,
or the fallback one when a truthy fallback was supplied) succeeds, and
`None` when all attempts fail.  Consequently `start_sequel_salad` completes
successfully with `poster = None` when image generation fails, instead of
failing the quiz start. -/
theorem generate_image_total_and_poster_optional
    (attemptOk : String → Bool) (fileId : String) (prompt : String)
    (fallback : Option String) :
    ((generateImage attemptOk fileId prompt fallback).1
        = if (attemptOk prompt
            || (fallbackTruthy fallback
                && attemptOk (getFallbackPrompt (fallback.getD ""))))
          then some ("/images/" ++ fileId ++ ".png") else none)
    ∧ (∀ (franchisesDoc : Option (List String)) (choiceIdx : Nat)
        (q : SequelSaladGeminiQuestion) (synth : String → String)
        (l : List String), getFranchises franchisesDoc = .ok l →
        attemptOk q.poster_prompt = false →
        ∃ d, (startSequelSalad franchisesDoc choiceIdx (.ok (.wellFormed q))
            attemptOk fileId synth).1 = .ok d ∧ d.poster = none) := by
  constructor
  · by_cases h1 : attemptOk prompt
    · simp [generateImage, h1]
    · by_cases h2 : fallbackTruthy fallback
      · by_cases h3 : attemptOk (getFallbackPrompt (fallback.getD ""))
        · simp [generateImage, h1, h2, h3]
        · simp [generateImage, h1, h2, h3]
      · simp [generateImage, h1, h2]
  · intro franchisesDoc choiceIdx q synth l hfr hfail
    unfold startSequelSalad parseGeminiReply
    rw [hfr]
    dsimp only
    rw [generateImage_no_fallback]
    exact ⟨_, rfl, by simp [hfail]⟩

/-- Witness for C10 at a concrete input: an image model that always fails
gives `None` (both attempts failing), and the sequel-salad `begin` still
succeeds, with `poster = None`. -/
theorem generate_image_total_and_poster_optional_witness :
    ((generateImage (fun _ => false) "f1" "p" none).1
        = if ((fun (_ : String) => false) "p"
            || (fallbackTruthy none
                && (fun (_ : String) => false) (getFallbackPrompt (Option.getD none ""))))
          then some ("/images/" ++ "f1" ++ ".png") else none)
    ∧ ∃ d, (startSequelSalad (some ["A", "B"]) 0
          (.ok (.wellFormed sampleSequelQuestion)) (fun _ => false) "f1"
          (fun _ => "/audio/s.mp3")).1 = .ok d ∧ d.poster = none := by
  have h := generate_image_total_and_poster_optional (fun _ => false) "f1" "p" none
  exact ⟨h.1, h.2 (some ["A", "B"]) 0 sampleSequelQuestion
    (fun _ => "/audio/s.mp3") ["A", "B"] rfl rfl⟩

end MovieDetectives
